import Mathlib

/-!
# vale command handlers (`cmd/vale/command.go`, `cmd/vale/api.go`)

The handlers of package `main` are glue: each one is a fixed sequence of
calls into collaborators (`core`, `lint`, `check`, `os`, `net/http`, ...)
with early returns on error.  The embedding keeps that shape.

* `Sig` bundles the types that belong to the collaborators.
* `Ext S` bundles the collaborators themselves.  A collaborator that
  touches the outside world is a state transformer on `S.State`.
* `World S` is the state together with the log of calls made so far, so
  that "is called", "is never called" and "is called before" are
  statements about the log.
* A handler maps a `World` to an `Outcome` and the `World` it leaves.
-/

namespace Vale

/-- Types owned by code outside `cmd/vale`. -/
structure Sig where
  /-- Everything the collaborators can observe or change. -/
  State : Type
  /-- Error values produced by collaborators. -/
  Err : Type
  /-- Result of `lint.ParseAlert`. -/
  Response : Type
  /-- Type `*lint.Linter`. -/
  Linter : Type
  /-- Type `*check.Manager`. -/
  Manager : Type
  /-- Type `*core.File`, one linted file. -/
  LintedFile : Type
  /-- Result of `ComputeMetrics`. -/
  Metrics : Type
  /-- Result of `core.TextToContext`. -/
  Tagged : Type
  /-- Type `check.Rule`. -/
  Rule : Type
  /-- Type `io.ReadCloser` of an HTTP response body. -/
  Body : Type
  /-- Type `*netrc.Netrc`. -/
  Netrc : Type
  /-- Type `*netrc.Machine`. -/
  Machine : Type
  /-- Type `*http.Request`. -/
  Request : Type
  /-- Type `*url.URL`. -/
  URL : Type

/-- The fields of `core.CLIFlags` this package reads or writes. -/
structure CLIFlags where
  InExt : String := ""
  Remote : Bool := false
  Built : String := ""
deriving DecidableEq, Repr

/-- The fields of `core.Config` this package reads or writes;
`StylesPath` is the value of the method `cfg.StylesPath()`. -/
structure Config where
  MinAlertLevel : Int
  GBaseStyles : List String
  Flags : CLIFlags
  ConfigFiles : List String
  StylesPath : String
deriving DecidableEq, Repr

/-- Type `nlp.Info` as built by `runTag`. -/
structure NLPInfo where
  Lang : String
  Endpoint : String
deriving DecidableEq, Repr

/-- CompiledRule is a rule's compiled regex. -/
structure CompiledRule where
  Pattern : String
deriving DecidableEq, Repr

/-- Go `error` values as seen by the handlers.  A value received from a
collaborator is carried unchanged in `ext`; the other constructors are the
values the handlers build themselves (`errors.New`, `fmt.Errorf`,
`core.NewE100`).  Go errors compare by identity, so a value built here is
never the same value as one received from a collaborator. -/
inductive Error (ε : Type) where
  | ext (e : ε)
  | errorsNew (text : String)
  | Errorf (text : String)
  | NewE100 (ctx : String) (err : Error ε)

/-- What a call of a handler ends in: a returned `error` (`none` is `nil`)
or a run-time panic. -/
inductive Outcome (ε : Type) where
  | ret (err : Option (Error ε))
  | panic (reason : String)

/-- Result of `os.Stat` when it succeeds: only `IsDir` is used. -/
structure FileInfo where
  IsDir : Bool
deriving DecidableEq, Repr

/-- Type `*os.File` as returned by `os.CreateTemp`: only `Name` is used. -/
structure TempFile where
  Name : String
deriving DecidableEq, Repr

/-- Type `*user.User`: only `HomeDir` is used. -/
structure User where
  HomeDir : String
deriving DecidableEq, Repr

/-- Type `*http.Response`: status code and body. -/
structure HttpResponse (S : Sig) where
  StatusCode : Int
  Body : S.Body

/-- The value handed to `printJSON` (an `interface{}` in the source). -/
inductive Payload (S : Sig) where
  | response (r : S.Response)
  | metrics (m : S.Metrics)
  | tagged (t : S.Tagged)
  | rule (r : CompiledRule)

/-- One call into a collaborator, with its arguments. -/
inductive Call (S : Sig) where
  | FileExists (path : String)
  | IsDir (path : String)
  | ReadPipeline (flags : CLIFlags) (dry : Bool)
  | NewConfig (flags : CLIFlags)
  | TextToContext (text : String) (nfo : NLPInfo)
  | ReadFile (path : String)
  | RemoveAll (path : String)
  | Stat (path : String)
  | Getenv (key : String)
  | UserCurrent
  | CreateTemp (dir : String) (pattern : String)
  | Remove (path : String)
  | Copy (dst : TempFile) (src : S.Body)
  | CloseFile (f : TempFile)
  | CloseBody (b : S.Body)
  | Unarchive (src : String) (dst : String)
  | HttpGet (url : String)
  | UrlParse (raw : String)
  | NetrcParse (path : String)
  | NewRequest (method : String) (url : String)
  | Do (req : S.Request)
  | ParseAlert (alert : String) (cfg : Config)
  | NewLinter (cfg : Config)
  | Lint (l : S.Linter) (paths : List String) (glob : String)
  | ComputeMetrics (f : S.LintedFile)
  | NewManager (cfg : Config)
  | AddRuleFromFile (m : S.Manager) (name : String) (path : String)
  | Rules (m : S.Manager)
  | printJSON (p : Payload S)
  | PrintJSONAlerts (fs : List S.LintedFile)
  | sendResponse (msg : String) (err : Option (Error S.Err))

/-- The collaborators of package `main`.  None of them is defined in
`command.go` or `api.go`; each is taken as given. -/
structure Ext (S : Sig) where
  -- package core
  FileExists : String → S.State → Bool × S.State
  IsDir : String → S.State → Bool × S.State
  ReadPipeline : CLIFlags → Bool → S.State → Except S.Err Config × S.State
  NewConfig : CLIFlags → S.State → Except S.Err Config × S.State
  TextToContext : String → NLPInfo → S.State → S.Tagged × S.State
  -- package os, os/user, runtime
  ReadFile : String → S.State → Except S.Err String × S.State
  RemoveAll : String → S.State → Option S.Err × S.State
  Stat : String → S.State → Except S.Err FileInfo × S.State
  Getenv : String → S.State → String × S.State
  UserCurrent : S.State → Except S.Err User × S.State
  CreateTemp : String → String → S.State → Except S.Err TempFile × S.State
  Remove : String → S.State → Option S.Err × S.State
  GOOS : String
  /-- Value of `errors.Is(err, os.ErrNotExist)` for a non-nil `err`. -/
  IsNotExist : S.Err → Bool
  -- package io, archiver
  Copy : TempFile → S.Body → S.State → Except S.Err Int × S.State
  CloseFile : TempFile → S.State → Option S.Err × S.State
  CloseBody : S.Body → S.State → Option S.Err × S.State
  Unarchive : String → String → S.State → Option S.Err × S.State
  -- package net/http, net/url, go-netrc
  HttpGet : String → S.State → Except S.Err (HttpResponse S) × S.State
  UrlParse : String → S.State → Except S.Err S.URL × S.State
  Hostname : S.URL → String
  NetrcParse : String → S.State → Except S.Err S.Netrc × S.State
  Machine : S.Netrc → String → Option S.Machine
  MachineGet : S.Machine → String → String
  NewRequest : String → String → S.State → Except S.Err S.Request × S.State
  SetBasicAuth : S.Request → String → String → S.Request
  Do : S.Request → S.State → Except S.Err (HttpResponse S) × S.State
  -- package path/filepath
  Join : String → String → String
  Base : String → String
  -- package lint
  ParseAlert : String → Config → S.State → Except S.Err S.Response × S.State
  NewLinter : Config → S.State → Except S.Err S.Linter × S.State
  LinterManager : S.Linter → S.Manager
  Lint : S.Linter → List String → String → S.State →
    Except S.Err (List S.LintedFile) × S.State
  ComputeMetrics : S.LintedFile → S.State → (S.Metrics × Option S.Err) × S.State
  -- package check
  NewManager : Config → S.State → Except S.Err S.Manager × S.State
  AddRuleFromFile : S.Manager → String → String → S.State → Option S.Err × S.State
  Rules : S.Manager → S.State → (String → Option S.Rule) × S.State
  Pattern : S.Rule → String
  -- package main, other files
  printJSON : Payload S → S.State → Option S.Err × S.State
  PrintJSONAlerts : List S.LintedFile → S.State → Bool × S.State
  sendResponse : String → Option (Error S.Err) → S.State → Option S.Err × S.State

/-- The outside world and the calls made into it so far, oldest first. -/
structure World (S : Sig) where
  state : S.State
  trace : List (Call S)

/-- A world in which no call has been made yet. -/
def World.start {S : Sig} (s : S.State) : World S := ⟨s, []⟩

/-- Perform one collaborator call: run it on the state and log it. -/
def call {S : Sig} {α : Type} (c : Call S) (f : S.State → α × S.State)
    (w : World S) : α × World S :=
  ((f w.state).1, ⟨(f w.state).2, w.trace ++ [c]⟩)

/-- A Go `error` result coming back from a collaborator. -/
def liftErr {ε : Type} : Option ε → Option (Error ε)
  | none => none
  | some e => some (Error.ext e)

/-- A handler: `func(args []string, flags *core.CLIFlags) error`. -/
abbrev Handler (S : Sig) := List String → CLIFlags → World S → Outcome S.Err × World S

/-- The panic of an out-of-range slice index. -/
def indexPanic {ε : Type} : Outcome ε := Outcome.panic "index out of range"

/-- The panic of a method call on a nil value. -/
def nilPanic {ε : Type} : Outcome ε := Outcome.panic "nil pointer dereference"

/-- Lines 58-65 of `fix`: `alert := args[0]`, replaced by the contents of
the file when `core.FileExists(args[0])`.  An `error` result is the early
`return err` after `os.ReadFile`. -/
def fixAlert {S : Sig} (E : Ext S) (a0 : String) (w : World S) :
    Except S.Err String × World S :=
  match call (Call.FileExists a0) (E.FileExists a0) w with
  | (true, w1) =>
    match call (Call.ReadFile a0) (E.ReadFile a0) w1 with
    | (Except.error err, w2) => (Except.error err, w2)
    | (Except.ok b, w2) => (Except.ok b, w2)
  | (false, w1) => (Except.ok a0, w1)

/-- Handler `fix` of `command.go`. -/
def fix {S : Sig} (E : Ext S) : Handler S := fun args flags w =>
  if args.length ≠ 1 then
    (Outcome.ret (some (Error.NewE100 "fix" (Error.errorsNew "one argument expected"))), w)
  else
    match args[0]? with
    | none => (indexPanic, w)
    | some a0 =>
      match fixAlert E a0 w with
      | (Except.error err, w2) => (Outcome.ret (some (Error.ext err)), w2)
      | (Except.ok alert, w2) =>
        match call (Call.ReadPipeline flags false) (E.ReadPipeline flags false) w2 with
        | (Except.error err, w3) => (Outcome.ret (some (Error.ext err)), w3)
        | (Except.ok cfg, w3) =>
          match call (Call.ParseAlert alert cfg) (E.ParseAlert alert cfg) w3 with
          | (Except.error err, w4) => (Outcome.ret (some (Error.ext err)), w4)
          | (Except.ok resp, w4) =>
            match call (Call.printJSON (Payload.response resp))
                (E.printJSON (Payload.response resp)) w4 with
            | (r, w5) => (Outcome.ret (liftErr r), w5)

/-- The three assignments `cfg.MinAlertLevel = 0`, `cfg.GBaseStyles = ...`,
`cfg.Flags.InExt = ".txt"` shared by `printMetrics` and `runRule`. -/
def setDefaults (cfg : Config) (styles : List String) : Config :=
  { cfg with MinAlertLevel := 0, GBaseStyles := styles,
             Flags := { cfg.Flags with InExt := ".txt" } }

/-- Handler `printMetrics` of `command.go`. -/
def printMetrics {S : Sig} (E : Ext S) : Handler S := fun args _ w =>
  if args.length ≠ 1 then
    (Outcome.ret (some (Error.NewE100 "ls-metrics"
      (Error.errorsNew "one argument expected"))), w)
  else
    match args[0]? with
    | none => (indexPanic, w)
    | some a0 =>
      match call (Call.FileExists a0) (E.FileExists a0) w with
      | (false, w1) => (Outcome.ret (some (Error.errorsNew "file not found")), w1)
      | (true, w1) =>
        match call (Call.NewConfig {}) (E.NewConfig {}) w1 with
        | (Except.error err, w2) => (Outcome.ret (some (Error.ext err)), w2)
        | (Except.ok cfg0, w2) =>
          match call (Call.NewLinter (setDefaults cfg0 ["Vale"]))
              (E.NewLinter (setDefaults cfg0 ["Vale"])) w2 with
          | (Except.error err, w3) => (Outcome.ret (some (Error.ext err)), w3)
          | (Except.ok linter, w3) =>
            match call (Call.Lint linter [a0] "*") (E.Lint linter [a0] "*") w3 with
            | (Except.error err, w4) => (Outcome.ret (some (Error.ext err)), w4)
            | (Except.ok linted, w4) =>
              match linted[0]? with
              | none => (indexPanic, w4)
              | some f0 =>
                match call (Call.ComputeMetrics f0) (E.ComputeMetrics f0) w4 with
                | ((computed, _), w5) =>
                  match call (Call.printJSON (Payload.metrics computed))
                      (E.printJSON (Payload.metrics computed)) w5 with
                  | (r, w6) => (Outcome.ret (liftErr r), w6)

/-- Handler `runTag` of `command.go`. -/
def runTag {S : Sig} (E : Ext S) : Handler S := fun args _ w =>
  if args.length ≠ 3 then
    (Outcome.ret (some (Error.NewE100 "tag"
      (Error.errorsNew "three arguments expected"))), w)
  else
    match args[0]?, args[1]?, args[2]? with
    | some a0, some a1, some a2 =>
      match call (Call.ReadFile a0) (E.ReadFile a0) w with
      | (Except.error err, w1) => (Outcome.ret (some (Error.ext err)), w1)
      | (Except.ok text, w1) =>
        match call (Call.TextToContext text ⟨a1, a2⟩) (E.TextToContext text ⟨a1, a2⟩) w1 with
        | (out, w2) =>
          match call (Call.printJSON (Payload.tagged out))
              (E.printJSON (Payload.tagged out)) w2 with
          | (r, w3) => (Outcome.ret (liftErr r), w3)
    | _, _, _ => (indexPanic, w)

/-- Handler `compileRule` of `command.go`. -/
def compileRule {S : Sig} (E : Ext S) : Handler S := fun args _ w =>
  if args.length ≠ 1 then
    (Outcome.ret (some (Error.NewE100 "compile"
      (Error.errorsNew "one argument expected"))), w)
  else
    match call (Call.NewConfig {}) (E.NewConfig {}) w with
    | (Except.error err, w1) => (Outcome.ret (some (Error.ext err)), w1)
    | (Except.ok cfg, w1) =>
      match args[0]? with
      | none => (indexPanic, w1)
      | some path =>
        match call (Call.NewManager cfg) (E.NewManager cfg) w1 with
        | (Except.error err, w2) => (Outcome.ret (some (Error.ext err)), w2)
        | (Except.ok mgr, w2) =>
          match call (Call.AddRuleFromFile mgr (E.Base path) path)
              (E.AddRuleFromFile mgr (E.Base path) path) w2 with
          | (some err, w3) => (Outcome.ret (some (Error.ext err)), w3)
          | (none, w3) =>
            match call (Call.Rules mgr) (E.Rules mgr) w3 with
            | (rules, w4) =>
              match rules (E.Base path) with
              | none => (nilPanic, w4)
              | some rule =>
                match call (Call.printJSON (Payload.rule ⟨E.Pattern rule⟩))
                    (E.printJSON (Payload.rule ⟨E.Pattern rule⟩)) w4 with
                | (r, w5) => (Outcome.ret (liftErr r), w5)

/-- Handler `runRule` of `command.go`. -/
def runRule {S : Sig} (E : Ext S) : Handler S := fun args _ w =>
  if args.length ≠ 2 then
    (Outcome.ret (some (Error.NewE100 "run"
      (Error.errorsNew "two arguments expected"))), w)
  else
    match call (Call.NewConfig {}) (E.NewConfig {}) w with
    | (Except.error err, w1) => (Outcome.ret (some (Error.ext err)), w1)
    | (Except.ok cfg0, w1) =>
      match call (Call.NewLinter (setDefaults cfg0 ["Test"]))
          (E.NewLinter (setDefaults cfg0 ["Test"])) w1 with
      | (Except.error err, w2) => (Outcome.ret (some (Error.ext err)), w2)
      | (Except.ok linter, w2) =>
        match args[0]? with
        | none => (indexPanic, w2)
        | some a0 =>
          match call (Call.AddRuleFromFile (E.LinterManager linter) "Test.Rule" a0)
              (E.AddRuleFromFile (E.LinterManager linter) "Test.Rule" a0) w2 with
          | (some err, w3) => (Outcome.ret (some (Error.ext err)), w3)
          | (none, w3) =>
            match args[1]? with
            | none => (indexPanic, w3)
            | some a1 =>
              match call (Call.Lint linter [a1] "*") (E.Lint linter [a1] "*") w3 with
              | (Except.error err, w4) => (Outcome.ret (some (Error.ext err)), w4)
              | (Except.ok linted, w4) =>
                match call (Call.PrintJSONAlerts linted) (E.PrintJSONAlerts linted) w4 with
                | (_, w5) => (Outcome.ret none, w5)

/-- Value of `errors.Is(err, os.ErrNotExist)`; a nil `err` is not
`os.ErrNotExist`. -/
def errorsIsNotExist {S : Sig} (E : Ext S) : Option S.Err → Bool
  | none => false
  | some e => E.IsNotExist e

/-- The `err` component of the pair returned by `os.Stat`. -/
def statErr {ε : Type} : Except ε FileInfo → Option ε
  | Except.ok _ => none
  | Except.error e => some e

/-- Value of `fi.IsDir()` for the `fi` component of the pair returned by
`os.Stat`.  It is evaluated only under `err == nil`; the value given for a
nil `fi` is never used. -/
def statIsDir {ε : Type} : Except ε FileInfo → Bool
  | Except.ok fi => fi.IsDir
  | Except.error _ => false

/-- Function `fileExists` of `api.go`:
`err == nil && !fi.IsDir() || !errors.Is(err, os.ErrNotExist)`. -/
def fileExists {S : Sig} (E : Ext S) (name : String) (w : World S) : Bool × World S :=
  match call (Call.Stat name) (E.Stat name) w with
  | (r, w1) =>
    ((statErr r).isNone && !(statIsDir r) || !(errorsIsNotExist E (statErr r)), w1)

/-- Function `netrcPath` of `api.go`. -/
def netrcPath {S : Sig} (E : Ext S) (w : World S) : String × World S :=
  match call (Call.Getenv "NETRC") (E.Getenv "NETRC") w with
  | (f, w1) =>
    if f ≠ "" then (f, w1)
    else
      match call Call.UserCurrent E.UserCurrent w1 with
      | (Except.error _, w2) => ("", w2)
      | (Except.ok usr, w2) =>
        match fileExists E (E.Join usr.HomeDir ".netrc") w2 with
        | (true, w3) => (E.Join usr.HomeDir ".netrc", w3)
        | (false, w3) =>
          if E.GOOS = "windows" then
            match fileExists E (E.Join usr.HomeDir "_netrc") w3 with
            | (true, w4) => (E.Join usr.HomeDir "_netrc", w4)
            | (false, w4) => ("", w4)
          else ("", w3)

/-- Function `httpGet` of `api.go`. -/
def httpGet {S : Sig} (E : Ext S) (src : String) (w : World S) :
    Except S.Err (HttpResponse S) × World S :=
  match netrcPath E w with
  | (f, w1) =>
    if f = "" then call (Call.HttpGet src) (E.HttpGet src) w1
    else
      match call (Call.UrlParse src) (E.UrlParse src) w1 with
      | (Except.error err, w2) => (Except.error err, w2)
      | (Except.ok u, w2) =>
        match call (Call.NetrcParse f) (E.NetrcParse f) w2 with
        | (Except.error err, w3) => (Except.error err, w3)
        | (Except.ok n, w3) =>
          match call (Call.NewRequest "GET" src) (E.NewRequest "GET" src) w3 with
          | (Except.error err, w4) => (Except.error err, w4)
          | (Except.ok req, w4) =>
            match E.Machine n (E.Hostname u) with
            | some m =>
              call (Call.Do (E.SetBasicAuth req (E.MachineGet m "login")
                  (E.MachineGet m "password")))
                (E.Do (E.SetBasicAuth req (E.MachineGet m "login")
                  (E.MachineGet m "password"))) w4
            | none => call (Call.Do req) (E.Do req) w4

/-- Text of `fmt.Errorf("could not fetch '%s' (status code '%d')", ...)`. -/
def couldNotFetch (src : String) (code : Int) : String :=
  "could not fetch '" ++ src ++ "' (status code '" ++ toString code ++ "')"

/-- The deferred `os.Remove(tmpfile.Name())` of `fetch`, run on the way out
with the value being returned. -/
def deferRemove {S : Sig} {α : Type} (E : Ext S) (name : String) (r : α × World S) :
    α × World S :=
  (r.1, (call (Call.Remove name) (E.Remove name) r.2).2)

/-- Function `fetch` of `api.go`. -/
def fetch {S : Sig} (E : Ext S) (src dst : String) (w : World S) :
    Option (Error S.Err) × World S :=
  match httpGet E src w with
  | (Except.error err, w1) => (some (Error.ext err), w1)
  | (Except.ok resp, w1) =>
    if resp.StatusCode ≠ 200 then
      (some (Error.Errorf (couldNotFetch src resp.StatusCode)), w1)
    else
      match call (Call.CreateTemp "" "temp.*.zip") (E.CreateTemp "" "temp.*.zip") w1 with
      | (Except.error err, w2) => (some (Error.ext err), w2)
      | (Except.ok tmpfile, w2) =>
        deferRemove E tmpfile.Name
          (match call (Call.Copy tmpfile resp.Body) (E.Copy tmpfile resp.Body) w2 with
           | (Except.error err, w3) => (some (Error.ext err), w3)
           | (Except.ok _, w3) =>
             match call (Call.CloseFile tmpfile) (E.CloseFile tmpfile) w3 with
             | (some err, w4) => (some (Error.ext err), w4)
             | (none, w4) =>
               match call (Call.CloseBody resp.Body) (E.CloseBody resp.Body) w4 with
               | (_, w5) =>
                 match call (Call.Unarchive tmpfile.Name dst)
                     (E.Unarchive tmpfile.Name dst) w5 with
                 | (r, w6) => (liftErr r, w6))

/-- Handler `install` of `api.go`. -/
def install {S : Sig} (E : Ext S) : Handler S := fun args flags w =>
  match call (Call.ReadPipeline flags false) (E.ReadPipeline flags false) w with
  | (Except.error err, w1) => (Outcome.ret (some (Error.ext err)), w1)
  | (Except.ok cfg, w1) =>
    match args[0]? with
    | none => (indexPanic, w1)
    | some a0 =>
      match (match call (Call.IsDir (E.Join cfg.StylesPath a0))
                (E.IsDir (E.Join cfg.StylesPath a0)) w1 with
            | (true, w2) =>
              (call (Call.RemoveAll (E.Join cfg.StylesPath a0))
                (E.RemoveAll (E.Join cfg.StylesPath a0)) w2).2
            | (false, w2) => w2) with
      | w3 =>
        match args[1]? with
        | none => (indexPanic, w3)
        | some a1 =>
          match fetch E a1 cfg.StylesPath w3 with
          | (some err, w4) =>
            match call (Call.sendResponse ("Failed to install '" ++ a1 ++ "'") (some err))
                (E.sendResponse ("Failed to install '" ++ a1 ++ "'") (some err)) w4 with
            | (r, w5) => (Outcome.ret (liftErr r), w5)
          | (none, w4) =>
            match call (Call.sendResponse ("Successfully installed '" ++ a1 ++ "'") none)
                (E.sendResponse ("Successfully installed '" ++ a1 ++ "'") none) w4 with
            | (r, w5) => (Outcome.ret (liftErr r), w5)

/-! ## Severity filter -/

/-- Modelled from the spec: the severity levels, "ordered level
(suggestion < warning < error) used for filtering"; the type is declared in
package `core`, which is not part of this package. -/
inductive Severity where
  | suggestion
  | warning
  | error
deriving DecidableEq, Repr

/-- Modelled from the spec: the position of a severity in the order
`suggestion < warning < error`, counted from 0 (`core.LevelToInt`, not part
of this package), the scale `Config.MinAlertLevel` is measured on. -/
def Severity.level : Severity → Int
  | Severity.suggestion => 0
  | Severity.warning => 1
  | Severity.error => 2

/-- Modelled from the spec: an alert, "rule id, message, severity, line,
column span" (package `core`, not part of this package). -/
structure Alert where
  Check : String
  Message : String
  Severity : Severity
  Line : Nat
  Span : Nat × Nat
deriving DecidableEq, Repr

/-- Modelled from the spec: the aggregator's severity filter, which "filters
out any alert whose severity is strictly below the configured minimum"
(package `core`, not part of this package). -/
def severityFilter (minAlertLevel : Int) (alerts : List Alert) : List Alert :=
  alerts.filter (fun a => !decide (a.Severity.level < minAlertLevel))

/-- No linting call and no alert output occurs in a log. -/
def NoLint {S : Sig} (t : List (Call S)) : Prop :=
  (∀ l paths glob, Call.Lint l paths glob ∉ t) ∧ ∀ fs, Call.PrintJSONAlerts fs ∉ t

/-! ## A reference environment

A small, fully concrete instance of the collaborators, used to run the
handlers on explicit inputs. -/

/-- State of the reference environment: regular files with their contents,
directories, and whether the network is reachable. -/
structure SimState where
  files : List (String × String)
  dirs : List String
  online : Bool
deriving DecidableEq, Repr

/-- Collaborator types of the reference environment. -/
@[reducible] def Sim : Sig where
  State := SimState
  Err := String
  Response := String
  Linter := Config
  Manager := Unit
  LintedFile := String
  Metrics := Nat
  Tagged := String
  Rule := String
  Body := String
  Netrc := Unit
  Machine := Unit
  Request := String
  URL := String

/-- Whether `p` names a regular file of `s`. -/
def SimState.hasFile (s : SimState) (p : String) : Bool :=
  s.files.any (fun f => f.1 == p)

/-- The configuration the reference environment resolves. -/
def simConfig (flags : CLIFlags) : Config :=
  { MinAlertLevel := 1, GBaseStyles := [], Flags := flags, ConfigFiles := [],
    StylesPath := "styles" }

/-- The error text of a missing file in the reference environment. -/
def simENOENT : String := "no such file or directory"

/-- Collaborators of the reference environment. -/
def simExt : Ext Sim where
  FileExists := fun p s => (s.hasFile p, s)
  IsDir := fun p s => (s.dirs.contains p, s)
  ReadPipeline := fun flags _ s => (Except.ok (simConfig flags), s)
  NewConfig := fun flags s => (Except.ok (simConfig flags), s)
  TextToContext := fun text _ s => (text, s)
  ReadFile := fun p s =>
    match s.files.lookup p with
    | some c => (Except.ok c, s)
    | none => (Except.error simENOENT, s)
  RemoveAll := fun p s => (none, { s with dirs := s.dirs.filter (fun d => d != p) })
  Stat := fun p s =>
    if s.hasFile p then (Except.ok ⟨false⟩, s)
    else if s.dirs.contains p then (Except.ok ⟨true⟩, s)
    else (Except.error simENOENT, s)
  Getenv := fun _ s => ("", s)
  UserCurrent := fun s => (Except.ok ⟨"/home/u"⟩, s)
  CreateTemp := fun _ _ s =>
    (Except.ok ⟨"/tmp/temp.1.zip"⟩, { s with files := ("/tmp/temp.1.zip", "") :: s.files })
  Remove := fun p s => (none, { s with files := s.files.filter (fun f => f.1 != p) })
  GOOS := "linux"
  IsNotExist := fun e => e == simENOENT
  Copy := fun _ b s => (Except.ok (b.length : Int), s)
  CloseFile := fun _ s => (none, s)
  CloseBody := fun _ s => (none, s)
  Unarchive := fun _ dst s => (none, { s with dirs := (dst ++ "/pkg") :: s.dirs })
  HttpGet := fun _ s =>
    if s.online then (Except.ok ⟨200, "zip"⟩, s)
    else (Except.error "network is unreachable", s)
  UrlParse := fun raw s => (Except.ok raw, s)
  Hostname := fun u => u
  NetrcParse := fun _ s => (Except.ok (), s)
  Machine := fun _ _ => none
  MachineGet := fun _ _ => ""
  NewRequest := fun _ u s => (Except.ok u, s)
  SetBasicAuth := fun r _ _ => r
  Do := fun _ s =>
    if s.online then (Except.ok ⟨200, "zip"⟩, s)
    else (Except.error "network is unreachable", s)
  Join := fun a b => a ++ "/" ++ b
  Base := fun p => p
  ParseAlert := fun a _ s =>
    if a = "" then (Except.error "malformed alert", s) else (Except.ok a, s)
  NewLinter := fun cfg s => (Except.ok cfg, s)
  LinterManager := fun _ => ()
  Lint := fun _ paths _ s => (Except.ok paths, s)
  ComputeMetrics := fun _ s => ((0, none), s)
  NewManager := fun _ s => (Except.ok (), s)
  AddRuleFromFile := fun _ _ path s =>
    if s.hasFile path then (none, s) else (some "rule file not found", s)
  Rules := fun _ s => (fun _ => none, s)
  Pattern := fun r => r
  printJSON := fun _ s => (none, s)
  PrintJSONAlerts := fun _ s => (false, s)
  sendResponse := fun _ _ s => (none, s)

/-- A state with one alert file, one rule file, one text file and one
installed style; the network is down. -/
def sim0 : SimState :=
  { files := [("alert.json", "ALERT"), ("rule.yml", "RULE"), ("doc.txt", "very good")],
    dirs := ["styles", "styles/Old"], online := false }

/-! ## Auxiliary facts about `call` -/

theorem call_mk {S : Sig} {α : Type} (c : Call S) (f : S.State → α × S.State)
    (s s1 : S.State) (t : List (Call S)) (a : α) (h : f s = (a, s1)) :
    call c f ⟨s, t⟩ = (a, ⟨s1, t ++ [c]⟩) := by
  simp [call, h]

theorem call_fst {S : Sig} {α : Type} (c : Call S) (f : S.State → α × S.State)
    (w : World S) : (call c f w).1 = (f w.state).1 := rfl

theorem call_state {S : Sig} {α : Type} (c : Call S) (f : S.State → α × S.State)
    (w : World S) : (call c f w).2.state = (f w.state).2 := rfl

theorem call_trace {S : Sig} {α : Type} (c : Call S) (f : S.State → α × S.State)
    (w : World S) : (call c f w).2.trace = w.trace ++ [c] := rfl

/-! ## Properties of `fix` -/

/-- C1: for a one-element argument list `[a0]`, the text `fix` hands to
`lint.ParseAlert` is the contents of the file `a0` when `core.FileExists`
holds and `os.ReadFile` succeeds, and `a0` itself when `core.FileExists`
does not hold; in both cases `lint.ParseAlert` is reached as soon as
`core.ReadPipeline` succeeds.  When the file exists and cannot be read,
`fix` returns the read error after exactly the two calls `FileExists`,
`ReadFile`, so neither `core.ReadPipeline` nor `lint.ParseAlert` is called. -/
theorem fix_alert_text {S : Sig} (E : Ext S) (a0 : String) (flags : CLIFlags)
    (s : S.State) :
    (∀ s1 b s2, E.FileExists a0 s = (true, s1) → E.ReadFile a0 s1 = (Except.ok b, s2) →
      (∀ alert cfg, Call.ParseAlert alert cfg ∈ (fix E [a0] flags (World.start s)).2.trace →
        alert = b) ∧
      (∀ cfg s3, E.ReadPipeline flags false s2 = (Except.ok cfg, s3) →
        Call.ParseAlert b cfg ∈ (fix E [a0] flags (World.start s)).2.trace)) ∧
    (∀ s1, E.FileExists a0 s = (false, s1) →
      (∀ alert cfg, Call.ParseAlert alert cfg ∈ (fix E [a0] flags (World.start s)).2.trace →
        alert = a0) ∧
      (∀ cfg s3, E.ReadPipeline flags false s1 = (Except.ok cfg, s3) →
        Call.ParseAlert a0 cfg ∈ (fix E [a0] flags (World.start s)).2.trace)) ∧
    (∀ s1 err s2, E.FileExists a0 s = (true, s1) →
      E.ReadFile a0 s1 = (Except.error err, s2) →
      fix E [a0] flags (World.start s) =
        (Outcome.ret (some (Error.ext err)),
          ⟨s2, [Call.FileExists a0, Call.ReadFile a0]⟩)) := by
  refine ⟨?_, ?_, ?_⟩
  · intro s1 b s2 h1 h2
    have hA : fixAlert E a0 (World.start s) =
        (Except.ok b, ⟨s2, [Call.FileExists a0, Call.ReadFile a0]⟩) := by
      simp [fixAlert, World.start, call_mk _ _ _ _ _ _ h1, call_mk _ _ _ _ _ _ h2]
    rcases h3 : E.ReadPipeline flags false s2 with ⟨_ | cfg, s3⟩
    · simp [fix, hA, call_mk _ _ _ _ _ _ h3]
    · rcases h4 : E.ParseAlert b cfg s3 with ⟨_ | resp, s4⟩
      · simp [fix, hA, call_mk _ _ _ _ _ _ h3, call_mk _ _ _ _ _ _ h4]
      · simp [fix, hA, call_mk _ _ _ _ _ _ h3, call_mk _ _ _ _ _ _ h4, call_trace]
  · intro s1 h1
    have hA : fixAlert E a0 (World.start s) =
        (Except.ok a0, ⟨s1, [Call.FileExists a0]⟩) := by
      simp [fixAlert, World.start, call_mk _ _ _ _ _ _ h1]
    rcases h3 : E.ReadPipeline flags false s1 with ⟨_ | cfg, s3⟩
    · simp [fix, hA, call_mk _ _ _ _ _ _ h3]
    · rcases h4 : E.ParseAlert a0 cfg s3 with ⟨_ | resp, s4⟩
      · simp [fix, hA, call_mk _ _ _ _ _ _ h3, call_mk _ _ _ _ _ _ h4]
      · simp [fix, hA, call_mk _ _ _ _ _ _ h3, call_mk _ _ _ _ _ _ h4, call_trace]
  · intro s1 err s2 h1 h2
    simp [fix, fixAlert, World.start, call_mk _ _ _ _ _ _ h1, call_mk _ _ _ _ _ _ h2]

/-- Witness of `fix_alert_text`: in the reference environment the file
`alert.json` exists and holds `ALERT`, and that text reaches `ParseAlert`. -/
theorem fix_alert_text_witness :
    Call.ParseAlert "ALERT" (simConfig {}) ∈
      (fix simExt ["alert.json"] {} (World.start sim0)).2.trace :=
  ((fix_alert_text simExt "alert.json" {} sim0).1 sim0 "ALERT" sim0 rfl rfl).2
    (simConfig {}) sim0 rfl

/-! ## Argument counts -/

theorem liftErr_ne_NewE100 {ε : Type} (r : Option ε) (ctx : String) (e : Error ε) :
    liftErr r ≠ some (Error.NewE100 ctx e) := by
  cases r <;> simp [liftErr]

theorem fixAlert_trace_lt {S : Sig} (E : Ext S) (a0 : String) (w : World S) :
    w.trace.length < (fixAlert E a0 w).2.trace.length := by
  simp only [fixAlert, call]
  repeat' split
  all_goals simp only [Prod.mk.injEq] at *
  all_goals (try casesm* _ ∧ _)
  all_goals subst_vars
  all_goals simp

/-- The body of `fix` once the argument count is known to be one. -/
theorem fix_one {S : Sig} (E : Ext S) (a0 : String) (flags : CLIFlags) (w : World S) :
    fix E [a0] flags w =
      match fixAlert E a0 w with
      | (Except.error err, w2) => (Outcome.ret (some (Error.ext err)), w2)
      | (Except.ok alert, w2) =>
        match call (Call.ReadPipeline flags false) (E.ReadPipeline flags false) w2 with
        | (Except.error err, w3) => (Outcome.ret (some (Error.ext err)), w3)
        | (Except.ok cfg, w3) =>
          match call (Call.ParseAlert alert cfg) (E.ParseAlert alert cfg) w3 with
          | (Except.error err, w4) => (Outcome.ret (some (Error.ext err)), w4)
          | (Except.ok resp, w4) =>
            match call (Call.printJSON (Payload.response resp))
                (E.printJSON (Payload.response resp)) w4 with
            | (r, w5) => (Outcome.ret (liftErr r), w5) := rfl

/-- C5: each argument-checking handler tests the argument count before
anything else.  With a wrong count (`fix`, `printMetrics`, `compileRule`:
not 1; `runTag`: not 3; `runRule`: not 2) the handler returns the
`core.NewE100` error with its own tag and leaves the world untouched: no
call is logged and the state is the one it was given.  With the expected
count the result is never a `core.NewE100` error and at least one
collaborator call is made. -/
theorem arg_count_checked_first {S : Sig} (E : Ext S) (args : List String)
    (flags : CLIFlags) (w : World S) :
    (args.length ≠ 1 → fix E args flags w =
      (Outcome.ret (some (Error.NewE100 "fix" (Error.errorsNew "one argument expected"))), w)) ∧
    (args.length ≠ 1 → printMetrics E args flags w =
      (Outcome.ret (some (Error.NewE100 "ls-metrics"
        (Error.errorsNew "one argument expected"))), w)) ∧
    (args.length ≠ 1 → compileRule E args flags w =
      (Outcome.ret (some (Error.NewE100 "compile"
        (Error.errorsNew "one argument expected"))), w)) ∧
    (args.length ≠ 3 → runTag E args flags w =
      (Outcome.ret (some (Error.NewE100 "tag"
        (Error.errorsNew "three arguments expected"))), w)) ∧
    (args.length ≠ 2 → runRule E args flags w =
      (Outcome.ret (some (Error.NewE100 "run"
        (Error.errorsNew "two arguments expected"))), w)) ∧
    (args.length = 1 →
      (∀ ctx e, (fix E args flags w).1 ≠ Outcome.ret (some (Error.NewE100 ctx e))) ∧
      w.trace.length < (fix E args flags w).2.trace.length) ∧
    (args.length = 1 →
      (∀ ctx e, (printMetrics E args flags w).1 ≠ Outcome.ret (some (Error.NewE100 ctx e))) ∧
      w.trace.length < (printMetrics E args flags w).2.trace.length) ∧
    (args.length = 1 →
      (∀ ctx e, (compileRule E args flags w).1 ≠ Outcome.ret (some (Error.NewE100 ctx e))) ∧
      w.trace.length < (compileRule E args flags w).2.trace.length) ∧
    (args.length = 3 →
      (∀ ctx e, (runTag E args flags w).1 ≠ Outcome.ret (some (Error.NewE100 ctx e))) ∧
      w.trace.length < (runTag E args flags w).2.trace.length) ∧
    (args.length = 2 →
      (∀ ctx e, (runRule E args flags w).1 ≠ Outcome.ret (some (Error.NewE100 ctx e))) ∧
      w.trace.length < (runRule E args flags w).2.trace.length) := by
  refine ⟨?_, ?_, ?_, ?_, ?_, ?_, ?_, ?_, ?_, ?_⟩
  · intro h; simp [fix, h]
  · intro h; simp [printMetrics, h]
  · intro h; simp [compileRule, h]
  · intro h; simp [runTag, h]
  · intro h; simp [runRule, h]
  · intro h
    obtain ⟨a0, rfl⟩ := List.length_eq_one.mp h
    have hlt := fixAlert_trace_lt E a0 w
    rw [fix_one]
    rcases hA : fixAlert E a0 w with ⟨_ | alert, w2⟩ <;> rw [hA] at hlt <;>
      simp only [call]
    · simp
      exact hlt
    · simp only at hlt
      constructor
      · intro ctx e
        repeat' split
        all_goals simp_all [liftErr_ne_NewE100, indexPanic]
      · repeat' split
        all_goals simp only [Prod.mk.injEq] at *
        all_goals (try casesm* _ ∧ _)
        all_goals subst_vars
        all_goals simp
        all_goals omega
  · intro h
    obtain ⟨a0, rfl⟩ := List.length_eq_one.mp h
    constructor
    · intro ctx e
      simp only [printMetrics, call]
      repeat' split
      all_goals simp_all [liftErr_ne_NewE100, indexPanic]
    · simp only [printMetrics, call]
      repeat' split
      all_goals simp only [Prod.mk.injEq] at *
      all_goals (try casesm* _ ∧ _)
      all_goals subst_vars
      all_goals simp at *
  · intro h
    obtain ⟨a0, rfl⟩ := List.length_eq_one.mp h
    constructor
    · intro ctx e
      simp only [compileRule, call]
      repeat' split
      all_goals simp_all [liftErr_ne_NewE100, indexPanic, nilPanic]
    · simp only [compileRule, call]
      repeat' split
      all_goals simp only [Prod.mk.injEq] at *
      all_goals (try casesm* _ ∧ _)
      all_goals subst_vars
      all_goals simp at *
  · intro h
    obtain ⟨a0, a1, a2, rfl⟩ := List.length_eq_three.mp h
    constructor
    · intro ctx e
      simp only [runTag, call]
      repeat' split
      all_goals simp_all [liftErr_ne_NewE100, indexPanic]
    · simp only [runTag, call]
      repeat' split
      all_goals simp only [Prod.mk.injEq] at *
      all_goals (try casesm* _ ∧ _)
      all_goals subst_vars
      all_goals simp at *
  · intro h
    obtain ⟨a0, a1, rfl⟩ := List.length_eq_two.mp h
    constructor
    · intro ctx e
      simp only [runRule, call]
      repeat' split
      all_goals simp_all [liftErr_ne_NewE100, indexPanic]
    · simp only [runRule, call]
      repeat' split
      all_goals simp only [Prod.mk.injEq] at *
      all_goals (try casesm* _ ∧ _)
      all_goals subst_vars
      all_goals simp at *

/-! ## Error propagation in `fix` -/

theorem fixAlert_trace_start {S : Sig} (E : Ext S) (a0 : String) (s : S.State) :
    (fixAlert E a0 (World.start s)).2.trace = [Call.FileExists a0] ∨
    (fixAlert E a0 (World.start s)).2.trace = [Call.FileExists a0, Call.ReadFile a0] := by
  simp only [fixAlert, call, World.start]
  repeat' split
  all_goals simp only [Prod.mk.injEq] at *
  all_goals (try casesm* _ ∧ _)
  all_goals subst_vars
  all_goals simp at *

/-- C2: in a one-argument call of `fix` that gets past the alert text
(`fixAlert` yields `alert`) and in which `core.ReadPipeline` succeeds with
`cfg`: when `lint.ParseAlert alert cfg` fails with `err`, `fix` returns
`err` itself and the log holds no `printJSON` call; when it succeeds with
`resp`, the result and final state of `fix` are those of
`printJSON(resp)`, which is the only `printJSON` call made. -/
theorem fix_parse_result {S : Sig} (E : Ext S) (a0 : String) (flags : CLIFlags)
    (s : S.State) (alert : String) (w2 : World S) (cfg : Config) (s3 : S.State)
    (hA : fixAlert E a0 (World.start s) = (Except.ok alert, w2))
    (hP : E.ReadPipeline flags false w2.state = (Except.ok cfg, s3)) :
    (∀ err s4, E.ParseAlert alert cfg s3 = (Except.error err, s4) →
      (fix E [a0] flags (World.start s)).1 = Outcome.ret (some (Error.ext err)) ∧
      ∀ p, Call.printJSON p ∉ (fix E [a0] flags (World.start s)).2.trace) ∧
    (∀ resp s4, E.ParseAlert alert cfg s3 = (Except.ok resp, s4) →
      (fix E [a0] flags (World.start s)).1 =
        Outcome.ret (liftErr (E.printJSON (Payload.response resp) s4).1) ∧
      (fix E [a0] flags (World.start s)).2.state =
        (E.printJSON (Payload.response resp) s4).2 ∧
      ∀ p, Call.printJSON p ∈ (fix E [a0] flags (World.start s)).2.trace ↔
        p = Payload.response resp) := by
  have ht := fixAlert_trace_start E a0 s
  rw [hA] at ht
  obtain ⟨s2, t2⟩ := w2
  simp only at hP ht
  constructor
  · intro err s4 h4
    rw [fix_one, hA]
    simp only [call_mk _ _ _ _ _ _ hP, call_mk _ _ _ _ _ _ h4]
    rcases ht with ht | ht <;> simp [ht]
  · intro resp s4 h4
    rw [fix_one, hA]
    simp only [call_mk _ _ _ _ _ _ hP, call_mk _ _ _ _ _ _ h4]
    rcases ht with ht | ht <;> simp [ht, call]

/-! ## `runRule`: the rule is added before anything is linted -/

/-- The body of `runRule` once the argument count is known to be two. -/
theorem runRule_two {S : Sig} (E : Ext S) (a0 a1 : String) (flags : CLIFlags)
    (w : World S) :
    runRule E [a0, a1] flags w =
      match call (Call.NewConfig {}) (E.NewConfig {}) w with
      | (Except.error err, w1) => (Outcome.ret (some (Error.ext err)), w1)
      | (Except.ok cfg0, w1) =>
        match call (Call.NewLinter (setDefaults cfg0 ["Test"]))
            (E.NewLinter (setDefaults cfg0 ["Test"])) w1 with
        | (Except.error err, w2) => (Outcome.ret (some (Error.ext err)), w2)
        | (Except.ok linter, w2) =>
          match call (Call.AddRuleFromFile (E.LinterManager linter) "Test.Rule" a0)
              (E.AddRuleFromFile (E.LinterManager linter) "Test.Rule" a0) w2 with
          | (some err, w3) => (Outcome.ret (some (Error.ext err)), w3)
          | (none, w3) =>
            match call (Call.Lint linter [a1] "*") (E.Lint linter [a1] "*") w3 with
            | (Except.error err, w4) => (Outcome.ret (some (Error.ext err)), w4)
            | (Except.ok linted, w4) =>
              match call (Call.PrintJSONAlerts linted) (E.PrintJSONAlerts linted) w4 with
              | (_, w5) => (Outcome.ret none, w5) := rfl

/-- C3: in a two-argument call `runRule [rule, file]`, a failure of
`core.NewConfig`, of `lint.NewLinter` or of
`AddRuleFromFile("Test.Rule", rule)` is returned as it is, and the log then
holds no `Lint` call and no `PrintJSONAlerts` call.  Conversely, whenever
the log holds a `Lint` call, the three earlier steps succeeded and the log
starts with `NewConfig`, `NewLinter`, `AddRuleFromFile`, `Lint` in that
order, the `Lint` call being on `[file]`. -/
theorem runRule_aborts_before_lint {S : Sig} (E : Ext S) (rule file : String)
    (flags : CLIFlags) (s : S.State) :
    (∀ e s1, E.NewConfig {} s = (Except.error e, s1) →
      (runRule E [rule, file] flags (World.start s)).1 = Outcome.ret (some (Error.ext e)) ∧
      NoLint (runRule E [rule, file] flags (World.start s)).2.trace) ∧
    (∀ cfg s1 e s2, E.NewConfig {} s = (Except.ok cfg, s1) →
      E.NewLinter (setDefaults cfg ["Test"]) s1 = (Except.error e, s2) →
      (runRule E [rule, file] flags (World.start s)).1 = Outcome.ret (some (Error.ext e)) ∧
      NoLint (runRule E [rule, file] flags (World.start s)).2.trace) ∧
    (∀ cfg s1 lin s2 e s3, E.NewConfig {} s = (Except.ok cfg, s1) →
      E.NewLinter (setDefaults cfg ["Test"]) s1 = (Except.ok lin, s2) →
      E.AddRuleFromFile (E.LinterManager lin) "Test.Rule" rule s2 = (some e, s3) →
      (runRule E [rule, file] flags (World.start s)).1 = Outcome.ret (some (Error.ext e)) ∧
      NoLint (runRule E [rule, file] flags (World.start s)).2.trace) ∧
    (∀ l paths glob,
      Call.Lint l paths glob ∈ (runRule E [rule, file] flags (World.start s)).2.trace →
      ∃ cfg s1 s2 s3 rest, E.NewConfig {} s = (Except.ok cfg, s1) ∧
        E.NewLinter (setDefaults cfg ["Test"]) s1 = (Except.ok l, s2) ∧
        E.AddRuleFromFile (E.LinterManager l) "Test.Rule" rule s2 = (none, s3) ∧
        paths = [file] ∧ glob = "*" ∧
        (runRule E [rule, file] flags (World.start s)).2.trace =
          [Call.NewConfig {}, Call.NewLinter (setDefaults cfg ["Test"]),
            Call.AddRuleFromFile (E.LinterManager l) "Test.Rule" rule,
            Call.Lint l [file] "*"] ++ rest) := by
  refine ⟨?_, ?_, ?_, ?_⟩
  · intro e s1 h1
    simp [runRule_two, World.start, call_mk _ _ _ _ _ _ h1, NoLint]
  · intro cfg s1 e s2 h1 h2
    simp [runRule_two, World.start, call_mk _ _ _ _ _ _ h1, call_mk _ _ _ _ _ _ h2, NoLint]
  · intro cfg s1 lin s2 e s3 h1 h2 h3
    simp [runRule_two, World.start, call_mk _ _ _ _ _ _ h1, call_mk _ _ _ _ _ _ h2,
      call_mk _ _ _ _ _ _ h3, NoLint]
  · intro l paths glob
    rw [runRule_two, World.start]
    rcases h1 : E.NewConfig {} s with ⟨e | cfg, s1⟩
    · simp [call_mk _ _ _ _ _ _ h1]
    rcases h2 : E.NewLinter (setDefaults cfg ["Test"]) s1 with ⟨e | lin, s2⟩
    · simp [call_mk _ _ _ _ _ _ h1, call_mk _ _ _ _ _ _ h2]
    rcases h3 : E.AddRuleFromFile (E.LinterManager lin) "Test.Rule" rule s2 with ⟨_ | e, s3⟩
    swap
    · simp [call_mk _ _ _ _ _ _ h1, call_mk _ _ _ _ _ _ h2, call_mk _ _ _ _ _ _ h3]
    rcases h4 : E.Lint lin [file] "*" s3 with ⟨e | linted, s4⟩
    · simp only [call_mk _ _ _ _ _ _ h1, call_mk _ _ _ _ _ _ h2, call_mk _ _ _ _ _ _ h3,
        call_mk _ _ _ _ _ _ h4]
      simp
      rintro rfl rfl rfl
      exact ⟨cfg, s1, ⟨rfl, rfl⟩, s2, h2, ⟨s3, h3⟩, rfl, rfl, rfl, rfl, rfl⟩
    · simp only [call_mk _ _ _ _ _ _ h1, call_mk _ _ _ _ _ _ h2, call_mk _ _ _ _ _ _ h3,
        call_mk _ _ _ _ _ _ h4]
      simp [call]
      rintro rfl rfl rfl
      exact ⟨cfg, s1, ⟨rfl, rfl⟩, s2, h2, ⟨s3, h3⟩, rfl, rfl, rfl, rfl, rfl⟩

/-! ## `printMetrics` -/

/-- The body of `printMetrics` once the argument count is known to be one. -/
theorem printMetrics_one {S : Sig} (E : Ext S) (a0 : String) (flags : CLIFlags)
    (w : World S) :
    printMetrics E [a0] flags w =
      match call (Call.FileExists a0) (E.FileExists a0) w with
      | (false, w1) => (Outcome.ret (some (Error.errorsNew "file not found")), w1)
      | (true, w1) =>
        match call (Call.NewConfig {}) (E.NewConfig {}) w1 with
        | (Except.error err, w2) => (Outcome.ret (some (Error.ext err)), w2)
        | (Except.ok cfg0, w2) =>
          match call (Call.NewLinter (setDefaults cfg0 ["Vale"]))
              (E.NewLinter (setDefaults cfg0 ["Vale"])) w2 with
          | (Except.error err, w3) => (Outcome.ret (some (Error.ext err)), w3)
          | (Except.ok linter, w3) =>
            match call (Call.Lint linter [a0] "*") (E.Lint linter [a0] "*") w3 with
            | (Except.error err, w4) => (Outcome.ret (some (Error.ext err)), w4)
            | (Except.ok linted, w4) =>
              match linted[0]? with
              | none => (indexPanic, w4)
              | some f0 =>
                match call (Call.ComputeMetrics f0) (E.ComputeMetrics f0) w4 with
                | ((computed, _), w5) =>
                  match call (Call.printJSON (Payload.metrics computed))
                      (E.printJSON (Payload.metrics computed)) w5 with
                  | (r, w6) => (Outcome.ret (liftErr r), w6) := rfl

/-- C4: every `Lint` call logged by `printMetrics` is on the one-element
path list `[args[0]]`.  Under the contract of `Lint` that a successful call
returns one linted file per input path, `linted[0]` is in range whenever it
is reached: `printMetrics` never ends in a panic. -/
theorem printMetrics_index_in_range {S : Sig} (E : Ext S) (args : List String)
    (flags : CLIFlags) (s : S.State)
    (hLint : ∀ l paths glob st fs st1,
      E.Lint l paths glob st = (Except.ok fs, st1) → fs.length = paths.length) :
    (∀ l paths glob,
      Call.Lint l paths glob ∈ (printMetrics E args flags (World.start s)).2.trace →
      ∃ a0, args = [a0] ∧ paths = [a0] ∧ paths.length = 1) ∧
    (∀ reason, (printMetrics E args flags (World.start s)).1 ≠ Outcome.panic reason) := by
  by_cases hlen : args.length = 1
  swap
  · simp [printMetrics, hlen, World.start]
  obtain ⟨a0, rfl⟩ := List.length_eq_one.mp hlen
  rw [printMetrics_one, World.start]
  rcases h1 : E.FileExists a0 s with ⟨_ | _, s1⟩
  · simp [call_mk _ _ _ _ _ _ h1]
  rcases h2 : E.NewConfig {} s1 with ⟨e | cfg, s2⟩
  · simp [call_mk _ _ _ _ _ _ h1, call_mk _ _ _ _ _ _ h2]
  rcases h3 : E.NewLinter (setDefaults cfg ["Vale"]) s2 with ⟨e | lin, s3⟩
  · simp [call_mk _ _ _ _ _ _ h1, call_mk _ _ _ _ _ _ h2, call_mk _ _ _ _ _ _ h3]
  rcases h4 : E.Lint lin [a0] "*" s3 with ⟨e | linted, s4⟩
  · simp only [call_mk _ _ _ _ _ _ h1, call_mk _ _ _ _ _ _ h2, call_mk _ _ _ _ _ _ h3,
      call_mk _ _ _ _ _ _ h4]
    simp
    intros; subst_vars; simp
  have hl : linted.length = 1 := by
    have := hLint _ _ _ _ _ _ h4
    simpa using this
  obtain ⟨f0, rfl⟩ := List.length_eq_one.mp hl
  simp only [call_mk _ _ _ _ _ _ h1, call_mk _ _ _ _ _ _ h2, call_mk _ _ _ _ _ _ h3,
    call_mk _ _ _ _ _ _ h4]
  simp [call]
  intros; subst_vars; simp

/-- C6: every configuration that `printMetrics` or `runRule` hands to
`lint.NewLinter` has `MinAlertLevel = 0`, whatever flags the caller passed
(the flags do not influence the run at all).  Level 0 is the level of
`suggestion`, the lowest severity, so no severity lies strictly below the
configured minimum and the severity filter returns every alert list
unchanged. -/
theorem newLinter_minAlertLevel_zero {S : Sig} (E : Ext S) (args : List String)
    (flags : CLIFlags) (s : S.State) (cfg : Config)
    (h : Call.NewLinter cfg ∈ (printMetrics E args flags (World.start s)).2.trace ∨
      Call.NewLinter cfg ∈ (runRule E args flags (World.start s)).2.trace) :
    cfg.MinAlertLevel = 0 ∧
    cfg.MinAlertLevel = Severity.level Severity.suggestion ∧
    (∀ sev : Severity, Severity.level Severity.suggestion ≤ sev.level) ∧
    (∀ sev : Severity, ¬ sev.level < cfg.MinAlertLevel) ∧
    (∀ alerts, severityFilter cfg.MinAlertLevel alerts = alerts) ∧
    (∀ flags1, printMetrics E args flags1 (World.start s) =
      printMetrics E args flags (World.start s)) ∧
    (∀ flags1, runRule E args flags1 (World.start s) =
      runRule E args flags (World.start s)) := by
  have h0 : cfg.MinAlertLevel = 0 := by
    rcases h with h | h
    · by_cases hlen : args.length = 1
      swap
      · simp [printMetrics, hlen, World.start] at h
      obtain ⟨a0, rfl⟩ := List.length_eq_one.mp hlen
      rw [printMetrics_one] at h
      simp only [call, World.start] at h
      repeat' split at h
      all_goals simp only [Prod.mk.injEq] at *
      all_goals (try casesm* _ ∧ _)
      all_goals subst_vars
      all_goals simp at h
      all_goals (subst h; rfl)
    · by_cases hlen : args.length = 2
      swap
      · simp [runRule, hlen, World.start] at h
      obtain ⟨a0, a1, rfl⟩ := List.length_eq_two.mp hlen
      rw [runRule_two] at h
      simp only [call, World.start] at h
      repeat' split at h
      all_goals simp only [Prod.mk.injEq] at *
      all_goals (try casesm* _ ∧ _)
      all_goals subst_vars
      all_goals simp at h
      all_goals (subst h; rfl)
  have hsev : ∀ sev : Severity, 0 ≤ sev.level := by
    intro sev; cases sev <;> simp [Severity.level]
  refine ⟨h0, by simp [h0, Severity.level], ?_, ?_, ?_, fun _ => rfl, fun _ => rfl⟩
  · intro sev; simpa [Severity.level] using hsev sev
  · intro sev; rw [h0]; exact not_lt.mpr (hsev sev)
  · intro alerts
    rw [h0, severityFilter]
    apply List.filter_eq_self.mpr
    intro a _
    simpa using hsev a.Severity

/-! ## `fileExists` -/

/-- C8: `fileExists name` is false exactly when `os.Stat name` fails with an
error for which `errors.Is(err, os.ErrNotExist)` holds.  It is true when
`Stat` succeeds, for a directory as for a regular file, and when `Stat`
fails with any other error.  The conjunct `!fi.IsDir()` has no influence:
putting any boolean in its place gives the same value, which is
`!errors.Is(err, os.ErrNotExist)`. -/
theorem fileExists_false_iff {S : Sig} (E : Ext S) (name : String) (w : World S) :
    ((fileExists E name w).1 = false ↔
      ∃ e, (E.Stat name w.state).1 = Except.error e ∧ E.IsNotExist e = true) ∧
    (∀ fi, (E.Stat name w.state).1 = Except.ok fi → (fileExists E name w).1 = true) ∧
    ((E.Stat name w.state).1 = Except.ok ⟨true⟩ → (fileExists E name w).1 = true) ∧
    (∀ e, (E.Stat name w.state).1 = Except.error e → E.IsNotExist e = false →
      (fileExists E name w).1 = true) ∧
    (∀ b : Bool, (fileExists E name w).1 =
      ((statErr (E.Stat name w.state).1).isNone && b
        || !(errorsIsNotExist E (statErr (E.Stat name w.state).1)))) ∧
    (fileExists E name w).1 = !(errorsIsNotExist E (statErr (E.Stat name w.state).1)) := by
  simp only [fileExists, call]
  rcases (E.Stat name w.state).1 with e | fi
  · simp [statErr, statIsDir, errorsIsNotExist]
  · simp [statErr, statIsDir, errorsIsNotExist]

/-! ## `install` -/

theorem netrcPath_trace {S : Sig} (E : Ext S) (w : World S) :
    ∃ mid, (netrcPath E w).2.trace = w.trace ++ mid := by
  simp only [netrcPath, fileExists, call]
  repeat' split
  all_goals simp only [Prod.mk.injEq] at *
  all_goals (try casesm* _ ∧ _)
  all_goals subst_vars
  all_goals (try simp only [List.append_assoc])
  all_goals exact ⟨_, rfl⟩

theorem httpGet_trace {S : Sig} (E : Ext S) (src : String) (w : World S) :
    ∃ mid, (httpGet E src w).2.trace = w.trace ++ mid := by
  obtain ⟨m1, h1⟩ := netrcPath_trace E w
  rcases hn : netrcPath E w with ⟨f, w1⟩
  rw [hn] at h1
  simp only at h1
  simp only [httpGet, hn, call]
  repeat' split
  all_goals simp only [Prod.mk.injEq] at *
  all_goals (try casesm* _ ∧ _)
  all_goals subst_vars
  all_goals (try simp only [h1, List.append_assoc])
  all_goals exact ⟨_, rfl⟩

theorem fetch_trace {S : Sig} (E : Ext S) (src dst : String) (w : World S) :
    ∃ mid, (fetch E src dst w).2.trace = w.trace ++ mid := by
  obtain ⟨m1, h1⟩ := httpGet_trace E src w
  rcases hn : httpGet E src w with ⟨r, w1⟩
  rw [hn] at h1
  simp only at h1
  simp only [fetch, hn, deferRemove, call]
  repeat' split
  all_goals simp only [Prod.mk.injEq] at *
  all_goals (try casesm* _ ∧ _)
  all_goals subst_vars
  all_goals (try simp only [h1, List.append_assoc])
  all_goals exact ⟨_, rfl⟩

/-- The body of `install` for at least two arguments, when
`core.ReadPipeline` succeeds and the style directory exists: the directory
is removed, then `fetch` runs in the world that removal left. -/
theorem install_two {S : Sig} (E : Ext S) (a0 a1 : String) (rest : List String)
    (flags : CLIFlags) (s : S.State) (cfg : Config) (s1 s2 : S.State)
    (r : Option S.Err) (s3 : S.State)
    (hP : E.ReadPipeline flags false s = (Except.ok cfg, s1))
    (hD : E.IsDir (E.Join cfg.StylesPath a0) s1 = (true, s2))
    (hR : E.RemoveAll (E.Join cfg.StylesPath a0) s2 = (r, s3)) :
    install E (a0 :: a1 :: rest) flags (World.start s) =
      match fetch E a1 cfg.StylesPath
        ⟨s3, [Call.ReadPipeline flags false, Call.IsDir (E.Join cfg.StylesPath a0),
          Call.RemoveAll (E.Join cfg.StylesPath a0)]⟩ with
      | (some err, w4) =>
        match call (Call.sendResponse ("Failed to install '" ++ a1 ++ "'") (some err))
            (E.sendResponse ("Failed to install '" ++ a1 ++ "'") (some err)) w4 with
        | (r, w5) => (Outcome.ret (liftErr r), w5)
      | (none, w4) =>
        match call (Call.sendResponse ("Successfully installed '" ++ a1 ++ "'") none)
            (E.sendResponse ("Successfully installed '" ++ a1 ++ "'") none) w4 with
        | (r, w5) => (Outcome.ret (liftErr r), w5) := by
  simp [install, World.start, call_mk _ _ _ _ _ _ hP, call_mk _ _ _ _ _ _ hD,
    call_mk _ _ _ _ _ _ hR]

/-- C7: for `args` with at least two elements, when `core.ReadPipeline`
succeeds and `StylesPath/args[0]` is a directory, the log of `install`
starts with `ReadPipeline`, `IsDir`, `RemoveAll` of that directory; every
call of `fetch(args[1], StylesPath)` comes after them, `fetch` runs in the
state the removal left, and the only call after `fetch` is `sendResponse`,
whatever `fetch` returned.  When `fetch` fails with `err`, the result and
final state of `install` are those of
`sendResponse("Failed to install '<args[1]>'", err)` applied to the state
`fetch` left: nothing puts the removed directory back. -/
theorem install_removes_before_fetch {S : Sig} (E : Ext S) (a0 a1 : String)
    (rest : List String) (flags : CLIFlags) (s : S.State) (cfg : Config)
    (s1 s2 : S.State) (r : Option S.Err) (s3 : S.State)
    (hP : E.ReadPipeline flags false s = (Except.ok cfg, s1))
    (hD : E.IsDir (E.Join cfg.StylesPath a0) s1 = (true, s2))
    (hR : E.RemoveAll (E.Join cfg.StylesPath a0) s2 = (r, s3)) :
    (∃ mid msg,
      (fetch E a1 cfg.StylesPath
        ⟨s3, [Call.ReadPipeline flags false, Call.IsDir (E.Join cfg.StylesPath a0),
          Call.RemoveAll (E.Join cfg.StylesPath a0)]⟩).2.trace =
        [Call.ReadPipeline flags false, Call.IsDir (E.Join cfg.StylesPath a0),
          Call.RemoveAll (E.Join cfg.StylesPath a0)] ++ mid ∧
      (install E (a0 :: a1 :: rest) flags (World.start s)).2.trace =
        [Call.ReadPipeline flags false, Call.IsDir (E.Join cfg.StylesPath a0),
          Call.RemoveAll (E.Join cfg.StylesPath a0)] ++ mid ++
        [Call.sendResponse msg
          (fetch E a1 cfg.StylesPath
            ⟨s3, [Call.ReadPipeline flags false, Call.IsDir (E.Join cfg.StylesPath a0),
              Call.RemoveAll (E.Join cfg.StylesPath a0)]⟩).1]) ∧
    (∀ err,
      (fetch E a1 cfg.StylesPath
        ⟨s3, [Call.ReadPipeline flags false, Call.IsDir (E.Join cfg.StylesPath a0),
          Call.RemoveAll (E.Join cfg.StylesPath a0)]⟩).1 = some err →
      (install E (a0 :: a1 :: rest) flags (World.start s)).1 =
        Outcome.ret (liftErr (E.sendResponse ("Failed to install '" ++ a1 ++ "'") (some err)
          (fetch E a1 cfg.StylesPath
            ⟨s3, [Call.ReadPipeline flags false, Call.IsDir (E.Join cfg.StylesPath a0),
              Call.RemoveAll (E.Join cfg.StylesPath a0)]⟩).2.state).1) ∧
      (install E (a0 :: a1 :: rest) flags (World.start s)).2.state =
        (E.sendResponse ("Failed to install '" ++ a1 ++ "'") (some err)
          (fetch E a1 cfg.StylesPath
            ⟨s3, [Call.ReadPipeline flags false, Call.IsDir (E.Join cfg.StylesPath a0),
              Call.RemoveAll (E.Join cfg.StylesPath a0)]⟩).2.state).2 ∧
      (install E (a0 :: a1 :: rest) flags (World.start s)).2.trace =
        (fetch E a1 cfg.StylesPath
          ⟨s3, [Call.ReadPipeline flags false, Call.IsDir (E.Join cfg.StylesPath a0),
            Call.RemoveAll (E.Join cfg.StylesPath a0)]⟩).2.trace ++
        [Call.sendResponse ("Failed to install '" ++ a1 ++ "'") (some err)]) := by
  rw [install_two E a0 a1 rest flags s cfg s1 s2 r s3 hP hD hR]
  obtain ⟨mid, hmid⟩ := fetch_trace E a1 cfg.StylesPath
    ⟨s3, [Call.ReadPipeline flags false, Call.IsDir (E.Join cfg.StylesPath a0),
      Call.RemoveAll (E.Join cfg.StylesPath a0)]⟩
  rcases hf : fetch E a1 cfg.StylesPath
    ⟨s3, [Call.ReadPipeline flags false, Call.IsDir (E.Join cfg.StylesPath a0),
      Call.RemoveAll (E.Join cfg.StylesPath a0)]⟩ with ⟨_ | err, w4⟩
  · rw [hf] at hmid
    simp only at hmid
    refine ⟨⟨mid, "Successfully installed '" ++ a1 ++ "'", hmid, ?_⟩, ?_⟩
    · simp [call, hmid]
    · intro err h; simp at h
  · rw [hf] at hmid
    simp only at hmid
    refine ⟨⟨mid, "Failed to install '" ++ a1 ++ "'", hmid, ?_⟩, ?_⟩
    · simp [call, hmid]
    · intro err1 h
      simp only [Option.some.injEq] at h
      subst h
      simp [call]

/-! ## The theorems at concrete inputs -/

/-- Witness of `arg_count_checked_first`: `fix` without arguments returns the
`E100` error tagged `fix` and makes no call; `runRule` with two arguments
does not return an `E100` error. -/
theorem arg_count_checked_first_witness :
    fix simExt [] {} (World.start sim0) =
      (Outcome.ret (some (Error.NewE100 "fix" (Error.errorsNew "one argument expected"))),
        World.start sim0) ∧
    (runRule simExt ["rule.yml", "doc.txt"] {} (World.start sim0)).1 ≠
      Outcome.ret (some (Error.NewE100 "run" (Error.errorsNew "two arguments expected"))) :=
  ⟨(arg_count_checked_first simExt [] {} (World.start sim0)).1 (by decide),
   ((arg_count_checked_first simExt ["rule.yml", "doc.txt"] {}
      (World.start sim0)).2.2.2.2.2.2.2.2.2 rfl).1 _ _⟩

/-- Witness of `fix_parse_result`: the literal alert `""` is no file, the
pipeline loads, `ParseAlert` rejects it, and `fix` returns that error. -/
theorem fix_parse_result_witness :
    (fix simExt [""] {} (World.start sim0)).1 =
      Outcome.ret (some (Error.ext "malformed alert")) ∧
    ∀ p, Call.printJSON p ∉ (fix simExt [""] {} (World.start sim0)).2.trace :=
  (fix_parse_result simExt "" {} sim0 "" ⟨sim0, [Call.FileExists ""]⟩ (simConfig {}) sim0
    rfl rfl).1 "malformed alert" sim0 rfl

/-- Witness of `runRule_aborts_before_lint`: the rule file is missing, so
`AddRuleFromFile` fails and nothing is linted. -/
theorem runRule_aborts_before_lint_witness :
    (runRule simExt ["missing.yml", "doc.txt"] {} (World.start sim0)).1 =
      Outcome.ret (some (Error.ext "rule file not found")) ∧
    NoLint (runRule simExt ["missing.yml", "doc.txt"] {} (World.start sim0)).2.trace :=
  (runRule_aborts_before_lint simExt "missing.yml" "doc.txt" {} sim0).2.2.1
    (simConfig {}) sim0 (setDefaults (simConfig {}) ["Test"]) sim0 "rule file not found" sim0
    rfl rfl rfl

/-- Witness of `printMetrics_index_in_range`: the reference `Lint` returns
one linted file per path, and `printMetrics` on `doc.txt` does not panic. -/
theorem printMetrics_index_in_range_witness :
    (printMetrics simExt ["doc.txt"] {} (World.start sim0)).1 ≠
      Outcome.panic "index out of range" :=
  (printMetrics_index_in_range simExt ["doc.txt"] {} sim0
    (by
      intro l paths glob st fs st1 h
      have h1 : Except.ok paths = Except.ok fs := congrArg Prod.fst h
      cases h1
      rfl)).2 "index out of range"

/-- Witness of `newLinter_minAlertLevel_zero`: the reference environment
resolves a configuration with `MinAlertLevel = 1`; the one `printMetrics`
hands to `NewLinter` has 0. -/
theorem newLinter_minAlertLevel_zero_witness :
    (simConfig {}).MinAlertLevel = 1 ∧
    (setDefaults (simConfig {}) ["Vale"]).MinAlertLevel = 0 :=
  ⟨rfl, (newLinter_minAlertLevel_zero simExt ["doc.txt"] {} sim0
    (setDefaults (simConfig {}) ["Vale"])
    (Or.inl (List.Mem.tail _ (List.Mem.tail _ (List.Mem.head _))))).1⟩

/-- Witness of `fileExists_false_iff`: `styles` is a directory of the
reference state and `fileExists` holds of it. -/
theorem fileExists_false_iff_witness :
    (fileExists simExt "styles" (World.start sim0)).1 = true :=
  (fileExists_false_iff simExt "styles" (World.start sim0)).2.2.1 rfl

/-- Witness of `install_removes_before_fetch`: the style `Old` is installed
and the network is down.  `install` fails, and the directory `styles/Old`
is no longer among the directories of the final state. -/
theorem install_removes_before_fetch_witness :
    sim0.dirs = ["styles", "styles/Old"] ∧
    (install simExt ["Old", "http://host/New.zip"] {} (World.start sim0)).2.state.dirs =
      ["styles"] ∧
    (install simExt ["Old", "http://host/New.zip"] {} (World.start sim0)).2.trace =
      (fetch simExt "http://host/New.zip" "styles"
        ⟨{ sim0 with dirs := ["styles"] },
          [Call.ReadPipeline {} false, Call.IsDir "styles/Old",
            Call.RemoveAll "styles/Old"]⟩).2.trace ++
      [Call.sendResponse ("Failed to install '" ++ "http://host/New.zip" ++ "'")
        (some (Error.ext "network is unreachable"))] :=
  ⟨rfl, rfl,
   ((install_removes_before_fetch simExt "Old" "http://host/New.zip" [] {} sim0
      (simConfig {}) sim0 sim0 none { sim0 with dirs := ["styles"] } rfl rfl rfl).2
      (Error.ext "network is unreachable") rfl).2.2⟩

end Vale
